import Mathlib

/-!
Shallow embedding of `src/main.rs` of the moonraker-cli repository: a terminal
JSON-RPC client for a printer-control server.  The embedding models

* the `CommandInput` line-editing widget (`len`, `cursor_position`,
  `lines_count`, `on_key_press`, and the `Widget::render` line slicing);
* the event dispatch of the blocking UI loop in `main` (including the
  `todo!()` placeholder arms, modelled as an explicit `Panic` outcome);
* the exit paths of the UI thread, tracking whether the terminal-restore
  statements (`DisableMouseCapture`, `ratatui::restore`) are executed;
* `network_loop` together with `MoonrakerRPC` construction and its serde
  serialization, with the HTTP transport and the channels as oracles.

Machine-integer conventions: Rust `as u16` casts truncate (`% 65536`);
`u16`/`usize` addition and subtraction are modelled wrapping modulo the word
size (release-build semantics; a debug build would panic at exactly the same
inputs, so claims that fail under the wrapping model fail under the checked
model as well); division or remainder by zero panics in Rust in every build
profile, so the functions performing it return `Option` and yield `none`
there.
-/

/-- Truncation modulus of Rust `u16` arithmetic. -/
def u16Mod : Nat := 65536

/-- Truncation modulus of Rust `usize` arithmetic (64-bit target). -/
def usizeMod : Nat := 18446744073709551616

/-- Wrapping `usize` subtraction `a - b` for `a b < usizeMod`
(release-build semantics of `width - self.prompt.len()` in `render`). -/
def usizeSub (a b : Nat) : Nat := (a + (usizeMod - b)) % usizeMod

/-- `crossterm` key modifiers.  The real type is a bit set with more flags
(SHIFT, CONTROL, ALT, SUPER, HYPER, META); the extra flags are never
inspected by the program, so the model keeps the three the pattern in
`main` can distinguish. -/
structure KeyModifiers where
  shift : Bool
  control : Bool
  alt : Bool
deriving DecidableEq, Repr

/-- The constant pattern `KeyModifiers::CONTROL` used by the Ctrl-C arm:
exactly the control flag set. -/
def KeyModifiers.CONTROL : KeyModifiers := ⟨false, true, false⟩

/-- `crossterm` key codes.  `other` stands for every remaining variant of
the Rust enum (arrows, function keys, Home, ...), all of which the program
treats uniformly through wildcard arms. -/
inductive KeyCode where
  | Char (c : Char)
  | Backspace
  | Enter
  | Esc
  | other
deriving DecidableEq, Repr

/-- `crossterm` key event kinds. -/
inductive KeyEventKind where
  | Press
  | Release
  | Repeat
deriving DecidableEq, Repr

/-- `crossterm` key event; the `state` field of the Rust struct is never
read by the program and is omitted. -/
structure KeyEvent where
  code : KeyCode
  modifiers : KeyModifiers
  kind : KeyEventKind
deriving DecidableEq, Repr

/-- `crossterm` events.  The payload of `Mouse` is dropped by the program
(bound and ignored), so it is not modelled. -/
inductive Event where
  | Key (e : KeyEvent)
  | FocusGained
  | FocusLost
  | Mouse
  | Paste (s : String)
  | Resize (columns rows : Nat)
deriving DecidableEq, Repr

/-- The `Error` enum of `main.rs`.  The payloads (underlying
`reqwest`/`serde_json`/`io` error values) are never inspected by the
program and are omitted. -/
inductive Error where
  | Request
  | Serde
  | JoinError
  | SendError
  | ioError
  | DisconnectedIOChannel
  | DisconnectedNetworkChannel
deriving DecidableEq, Repr

/-- `serde_json::value::Value` (aliased `JSON` in the source).  Numbers are
modelled as integers; no claim inspects numeric payloads. -/
inductive JSON where
  | null
  | bool (b : Bool)
  | num (n : Int)
  | str (s : String)
  | arr (elems : List JSON)
  | obj (fields : List (String × JSON))

/-- Field lookup in a serialized JSON object. -/
def JSON.lookup (j : JSON) (key : String) : Option JSON :=
  match j with
  | .obj fields => fields.lookup key
  | _ => none

/-- `ratatui::layout::Rect` (fields are `u16` in Rust; theorems carry the
`< u16Mod` bounds where they matter). -/
structure Rect where
  x : Nat
  y : Nat
  width : Nat
  height : Nat
deriving DecidableEq, Repr

/-- `ratatui::layout::Position` (column `x`, row `y`). -/
structure Position where
  x : Nat
  y : Nat
deriving DecidableEq, Repr

/-- The `CommandInput` widget state: immutable prompt, mutable buffer.
The Rust buffer is a `String` operated on via `chars()`; it is modelled as
the list of its characters. -/
structure CommandInput where
  prompt : String
  input : List Char
deriving DecidableEq, Repr

/-- `CommandInput::new`. -/
def CommandInput.new : CommandInput := ⟨"> ", []⟩

/-- `self.input.push(ch)`. -/
def CommandInput.push (c : CommandInput) (ch : Char) : CommandInput :=
  { c with input := c.input ++ [ch] }

/-- `self.input.pop()` (drops the last character; no-op on empty). -/
def CommandInput.pop (c : CommandInput) : CommandInput :=
  { c with input := c.input.dropLast }

/-- `CommandInput::on_key_press`. -/
def CommandInput.on_key_press (c : CommandInput) (event : KeyEvent) : CommandInput :=
  match event.code with
  | .Char ch => c.push ch
  | .Backspace => c.pop
  | _ => c

/-- `CommandInput::len`: `self.prompt.chars().count() + self.input.chars().count()`. -/
def CommandInput.len (c : CommandInput) : Nat :=
  c.prompt.length + c.input.length

/-- `CommandInput::cursor_position`:
`Position::new(input_len % area.width, area.height)` where
`input_len = self.len() as u16`.  Remainder by zero panics in Rust
(every build profile), modelled as `none`. -/
def CommandInput.cursor_position (c : CommandInput) (area : Rect) : Option Position :=
  let input_len := c.len % u16Mod
  if area.width = 0 then none
  else some ⟨input_len % area.width, area.height⟩

/-- `CommandInput::lines_count`: `(self.len() as u16 / area.width) + 1`.
Division by zero panics in Rust, modelled as `none`; the `+ 1` is `u16`
addition, modelled wrapping. -/
def CommandInput.lines_count (c : CommandInput) (area : Rect) : Option Nat :=
  if area.width = 0 then none
  else some (((c.len % u16Mod) / area.width + 1) % u16Mod)

/-- The `loop` in `Widget::render for &CommandInput`: repeatedly take
`width` characters into a line, stopping when the taken line is empty. -/
def sliceLoop (width : Nat) : List Char → List (List Char)
  | [] => []
  | ch :: rest =>
    if width = 0 then []
    else List.take width (ch :: rest) :: sliceLoop width (List.drop width (ch :: rest))
termination_by l => l.length
decreasing_by
  simp only [List.length_drop, List.length_cons]
  omega

/-- `Widget::render for &CommandInput`, abstracted to the sequence of
produced lines: the prompt span and the first slice share row 0 and are
modelled as one concatenated line; each loop iteration contributes one
further line.  The first slice takes `width - self.prompt.len()` characters,
where `.len()` is the BYTE length of the prompt and the subtraction is
`usize` arithmetic (wrapping model; a debug build panics at the same
inputs). -/
def CommandInput.renderLines (c : CommandInput) (width : Nat) : List String :=
  (c.prompt ++ String.mk (c.input.take (usizeSub width c.prompt.utf8ByteSize))) ::
    (sliceLoop width (c.input.drop (usizeSub width c.prompt.utf8ByteSize))).map String.mk

/-- The render contract in the spec's words: first line is the prompt plus
as many leading buffer characters as fit in the width remaining after the
prompt (natural subtraction: nothing remains when the prompt does not fit);
subsequent lines are the successive width-sized slices of the remaining
buffer, stopping once the buffer is exhausted. -/
def specRenderLines (prompt : String) (input : List Char) (width : Nat) : List String :=
  (prompt ++ String.mk (input.take (width - prompt.length))) ::
    (List.range (((input.drop (width - prompt.length)).length + width - 1) / width)).map
      (fun i => String.mk (((input.drop (width - prompt.length)).drop (width * i)).take width))

mutual

/-- `serde_json::to_string_pretty` output for a `Value`, modelled as a
black-box total printer (the spec treats serialization as an external
codec; no claim inspects the produced text). -/
def JSON.pretty : JSON → String
  | .null => "null"
  | .bool b => toString b
  | .num n => toString n
  | .str s => "\"" ++ s ++ "\""
  | .arr xs => "[" ++ JSON.prettyArr xs ++ "]"
  | .obj fs => "\x7b" ++ JSON.prettyObj fs ++ "\x7d"

/-- Comma-separated rendering of array elements. -/
def JSON.prettyArr : List JSON → String
  | [] => ""
  | [x] => JSON.pretty x
  | x :: y :: rest => JSON.pretty x ++ "," ++ JSON.prettyArr (y :: rest)

/-- Comma-separated rendering of object fields. -/
def JSON.prettyObj : List (String × JSON) → String
  | [] => ""
  | [(k, v)] => "\"" ++ k ++ "\":" ++ JSON.pretty v
  | (k, v) :: p :: rest =>
    "\"" ++ k ++ "\":" ++ JSON.pretty v ++ "," ++ JSON.prettyObj (p :: rest)

end

/-- `format_json`: `serde_json::to_string_pretty(&value).map_err(Error::Serde)`.
Serialization of a `serde_json::Value` to text cannot fail, so the `Err`
branch of the Rust `Result` is dead; the model keeps the `Except` type of
the source signature. -/
def format_json (value : JSON) : Except Error String :=
  .ok (JSON.pretty value)

/-- `uuid::Uuid`, modelled as an abstract identifier.  `Uuid::new_v4()`
draws fresh random identifiers; the network-loop model threads an explicit
identifier stream, and freshness (injectivity of the stream) is the
documented contract of `new_v4` taken as a hypothesis where a claim needs
distinctness. -/
abbrev Uuid := Nat

/-- The `MoonrakerRPC` request envelope struct. -/
structure MoonrakerRPC where
  jsonrpc : String
  id : Uuid
  method : String
  params : Option JSON

/-- The envelope built by `network_loop` for a submitted command `input`:
`MoonrakerRPC { jsonrpc: "2.0", id: Uuid::new_v4(), method:
"printer.gcode.script", params: Some(json!({ "script": input })) }`. -/
def MoonrakerRPC.build (freshId : Uuid) (input : String) : MoonrakerRPC :=
  { jsonrpc := "2.0"
    id := freshId
    method := "printer.gcode.script"
    params := some (.obj [("script", .str input)]) }

/-- serde `#[derive(Serialize)]` for `MoonrakerRPC`: an object with the
fields in declaration order, `params` skipped when `None`
(`#[serde(skip_serializing_if = "Option::is_none")]`); a `Uuid`
serializes as a string. -/
def MoonrakerRPC.serialize (r : MoonrakerRPC) : JSON :=
  JSON.obj
    ([("jsonrpc", JSON.str r.jsonrpc),
      ("id", JSON.str (toString r.id)),
      ("method", JSON.str r.method)] ++
     (match r.params with
      | none => []
      | some p => [("params", p)]))

/-- `network_loop`, driven by oracles: `ids` is the stream of identifiers
returned by successive `Uuid::new_v4()` calls (`k` the index of the next
draw); `http c` is the combined outcome of the POST round trip and the
`.json::<JSON>()` body parse for command `c`; `respClosed` tells whether
`network_tx.send` fails (response channel closed); `cmds` is the sequence
of commands `io_rx.recv()` yields, and `cmdClosed` whether the command
channel is closed after them (a `recv` returning `None`).  Returns the
envelopes built, the responses successfully sent, and `some e` when the
loop aborted with error `e` (`none` while it is still awaiting input). -/
def network_loop (ids : Nat → Uuid) (http : String → Except Error JSON)
    (respClosed : Bool) (cmdClosed : Bool) (k : Nat) :
    List String → List MoonrakerRPC × List String × Option Error
  | [] => ([], [], if cmdClosed then some .DisconnectedIOChannel else none)
  | c :: rest =>
    let req := MoonrakerRPC.build (ids k) c
    match (http c).bind format_json with
    | .error e => ([req], [], some e)
    | .ok s =>
      if respClosed then ([req], [], some .SendError)
      else
        let r := network_loop ids http respClosed cmdClosed (k + 1) rest
        (req :: r.1, s :: r.2.1, r.2.2)

/-- Result of `network_rx.try_recv()` in the UI loop. -/
inductive TryRecv where
  | ok (resp : String)
  | empty
  | disconnected
deriving DecidableEq, Repr

/-- Mutable state of the UI loop closure: the widget and the scrollback
vector `responses`. -/
structure UIState where
  cmd : CommandInput
  responses : List String
deriving DecidableEq, Repr

/-- What one arm of the `match event::read()? { ... }` dispatch in `main`
does: continue the loop, break out of it (Ctrl-C), perform
`io_tx.blocking_send` of a command (Enter), or hit a `todo!()` placeholder,
which panics. -/
inductive LoopAction where
  | Continue
  | Break
  | Send (msg : String)
  | Panic (msg : String)
deriving DecidableEq, Repr

/-- The event dispatch of the UI loop (`main.rs` lines 174-201), arm by arm
in source order:
1. `Key { code: Char('c'), modifiers: CONTROL, .. }` → `break`;
2. `Key { code: Esc, .. }` → `()`;
3. `Key { code: Enter, .. }` → take the buffer, reset it, send the text;
4. `Key(event) if event.kind == Press` → `cmd.on_key_press(event)`;
5. `Key(input)` → `todo!("Key event")`;
6. `FocusGained` → `todo!("FocusGained event")`;
7. `FocusLost` → `todo!("FocusLost event")`;
8. `Mouse(event)` → `{}`;
9. `Paste(input)` → `todo!("Paste event")`;
10. `Resize(_, _)` → `{}`. -/
def dispatchEvent (cmd : CommandInput) (ev : Event) : CommandInput × LoopAction :=
  match ev with
  | .Key ke =>
    if ke.code = .Char 'c' ∧ ke.modifiers = KeyModifiers.CONTROL then
      (cmd, .Break)
    else if ke.code = .Esc then
      (cmd, .Continue)
    else if ke.code = .Enter then
      ({ cmd with input := [] }, .Send (String.mk cmd.input))
    else if ke.kind = .Press then
      (cmd.on_key_press ke, .Continue)
    else
      (cmd, .Panic "Key event")
  | .FocusGained => (cmd, .Panic "FocusGained event")
  | .FocusLost => (cmd, .Panic "FocusLost event")
  | .Mouse => (cmd, .Continue)
  | .Paste _ => (cmd, .Panic "Paste event")
  | .Resize _ _ => (cmd, .Continue)

/-- Outcome of one iteration of the UI loop body. -/
inductive IterOutcome where
  | continue (s : UIState)
  | breakLoop (s : UIState)
  | earlyReturn (e : Error)
  | panicked (msg : String)
deriving DecidableEq, Repr

/-- Oracle for one UI-loop iteration: outcomes of the fallible calls
`terminal.draw`, `event::poll` (with its 100 ms timeout; `ok b` means the
call returned `Ok(b)`), `event::read`, `io_tx.blocking_send` (`sendOk =
false` models the command channel being closed; a send that has to wait for
queue space simply completes later, so a completed blocking send is
`sendOk = true`), and `network_rx.try_recv`. -/
structure IOIterEnv where
  draw : Except Error Unit
  poll : Except Error Bool
  read : Except Error Event
  sendOk : Bool
  tryRecv : TryRecv

/-- The response drain at the bottom of the UI loop body (`main.rs` lines
204-210): at most one pending response is appended to `responses`;
a disconnected response channel is a fatal early return. -/
def drainStep (s : UIState) (env : IOIterEnv) : IterOutcome :=
  match env.tryRecv with
  | .ok resp => .continue { s with responses := s.responses ++ [resp] }
  | .empty => .continue s
  | .disconnected => .earlyReturn .DisconnectedNetworkChannel

/-- One iteration of the UI loop body (`main.rs` lines 150-211): draw,
poll, dispatch the event if one is pending, then drain.  Every `?` is an
early return out of the closure; `break` (Ctrl-C) leaves the loop without
running the drain. -/
def ioIter (s : UIState) (env : IOIterEnv) : IterOutcome :=
  match env.draw with
  | .error e => .earlyReturn e
  | .ok _ =>
    match env.poll with
    | .error e => .earlyReturn e
    | .ok false => drainStep s env
    | .ok true =>
      match env.read with
      | .error e => .earlyReturn e
      | .ok ev =>
        match dispatchEvent s.cmd ev with
        | (cmd', .Break) => .breakLoop { s with cmd := cmd' }
        | (cmd', .Continue) => drainStep { s with cmd := cmd' } env
        | (cmd', .Send _) =>
          if env.sendOk then drainStep { s with cmd := cmd' } env
          else .earlyReturn .SendError
        | (_, .Panic m) => .panicked m

/-- Result of running the UI-loop closure over a finite trace of iteration
oracles.  `restored` records whether control reached the
`DisableMouseCapture` / `ratatui::restore` statements (`main.rs` lines
214-215), which stand AFTER the loop: only a `break` reaches them, while a
`?`-style early return leaves the closure immediately (the source marks
this with `// TODO: ensure we are calling these when an error occurs`). -/
inductive ThreadResult where
  | running (s : UIState)
  | finished (res : Except Error Unit) (restored : Bool) (s : UIState)
  | panicked (msg : String)
deriving Repr

/-- The UI-loop closure (`io_thread`) over a finite trace of iteration
oracles: iterate until `break` (restore statements run, `Ok(())`), an early
return (restore statements skipped), or a panic; `running` when the trace
is exhausted with the loop still going. -/
def ioThreadRun (s : UIState) : List IOIterEnv → ThreadResult
  | [] => .running s
  | env :: rest =>
    match ioIter s env with
    | .continue s' => ioThreadRun s' rest
    | .breakLoop s' => .finished (.ok ()) true s'
    | .earlyReturn e => .finished (.error e) false s
    | .panicked m => .panicked m

/-- The scrollback render (`main.rs` lines 160-168): the list handed to the
`List` widget is `responses.iter().rev()` — most recent entry first
(shown bottom-to-top). -/
def scrollbackRender (responses : List String) : List String :=
  responses.reverse

/-- The UI loop appending a queue of drained responses one per iteration,
in arrival order (`responses.push(resp)` per `Ok` drain). -/
def drainAll (responses : List String) (incoming : List String) : List String :=
  incoming.foldl (fun acc r => acc ++ [r]) responses

/-- Unfolding lemma for `CommandInput.len` on a literal widget state
(avoids definitional unfolding through large concrete buffers). -/
theorem CommandInput.len_mk (p : String) (i : List Char) :
    (CommandInput.mk p i).len = p.length + i.length := rfl

/-- Claim C1: the spec requires every event kind other than the handled
keys to be an explicit no-op, with no panicking branch reachable.  The code
violates this: the `FocusGained`, `FocusLost`, `Paste`, and leftover
key-event arms are `todo!()` placeholders, which panic; only `Mouse` and
`Resize` (and `Esc`) are genuine no-ops.  This theorem evaluates the
dispatch at the failing inputs. -/
theorem c1_dispatch_todo_panics :
    dispatchEvent CommandInput.new .FocusGained =
      (CommandInput.new, .Panic "FocusGained event") ∧
    dispatchEvent CommandInput.new .FocusLost =
      (CommandInput.new, .Panic "FocusLost event") ∧
    dispatchEvent CommandInput.new (.Paste "text") =
      (CommandInput.new, .Panic "Paste event") ∧
    dispatchEvent CommandInput.new (.Key ⟨.Char 'a', ⟨false, false, false⟩, .Release⟩) =
      (CommandInput.new, .Panic "Key event") ∧
    dispatchEvent CommandInput.new .Mouse = (CommandInput.new, .Continue) ∧
    dispatchEvent CommandInput.new (.Resize 80 24) = (CommandInput.new, .Continue) := by
  decide

/-- Claim C2: the spec requires terminal restoration (mouse capture
disabled, alternate screen left) on every exit path.  The code runs the
restore statements only after a normal `break`; every `?` early return and
the explicit `return Err(DisconnectedNetworkChannel)` skip them (the source
itself carries `// TODO: ensure we are calling these when an error
occurs`).  This theorem evaluates the loop on a normal Ctrl-C exit
(restored) and on two error exits (not restored). -/
theorem c2_restore_only_on_normal_exit :
    ioThreadRun ⟨CommandInput.new, []⟩
        [⟨.ok (), .ok true, .ok (.Key ⟨.Char 'c', KeyModifiers.CONTROL, .Press⟩),
          true, .empty⟩] =
      .finished (.ok ()) true ⟨CommandInput.new, []⟩ ∧
    ioThreadRun ⟨CommandInput.new, []⟩
        [⟨.ok (), .ok false, .ok .Mouse, true, .disconnected⟩] =
      .finished (.error .DisconnectedNetworkChannel) false ⟨CommandInput.new, []⟩ ∧
    ioThreadRun ⟨CommandInput.new, []⟩
        [⟨.ok (), .ok true, .ok (.Key ⟨.Enter, ⟨false, false, false⟩, .Press⟩),
          false, .empty⟩] =
      .finished (.error .SendError) false ⟨CommandInput.new, []⟩ := by
  exact ⟨rfl, rfl, rfl⟩

/-- Claim C3 (counterexample): the claim quantifies over unbounded total
length L, but `len()` is cast `as u16` before the division.  At prompt
length 2 and buffer length 65534 (L = 65536) with width 10, the claim
demands floor(65536/10)+1 = 6554 rows, while the code computes 1. -/
theorem c3_u16_truncation_counterexample :
    (CommandInput.mk "> " (List.replicate 65534 'a')).lines_count ⟨0, 0, 10, 24⟩ =
      some 1 ∧
    (CommandInput.mk "> " (List.replicate 65534 'a')).len / 10 + 1 = 6554 ∧
    (CommandInput.mk "> " (List.replicate 65534 'a')).lines_count ⟨0, 0, 10, 24⟩ ≠
      some ((CommandInput.mk "> " (List.replicate 65534 'a')).len / 10 + 1) := by
  have hlen : (CommandInput.mk "> " (List.replicate 65534 'a')).len = 65536 := by
    rw [CommandInput.len_mk, List.length_replicate]
    decide
  refine ⟨?_, ?_, ?_⟩
  · unfold CommandInput.lines_count
    rw [hlen]
    decide
  · rw [hlen]
  · unfold CommandInput.lines_count
    rw [hlen]
    decide

/-- Claim C3 (amended): for every widget state of total length
L = prompt character count + buffer character count with L < 65535 (below
the u16 truncation threshold) and every positive render width W < 65536,
the row count is floor(L/W)+1 and the cursor column is L mod W. -/
theorem c3_wrap_geometry (c : CommandInput) (area : Rect)
    (hw : 0 < area.width) (_hwu : area.width < u16Mod) (hl : c.len < u16Mod - 1) :
    c.lines_count area = some (c.len / area.width + 1) ∧
    c.cursor_position area = some ⟨c.len % area.width, area.height⟩ := by
  have hne : area.width ≠ 0 := Nat.pos_iff_ne_zero.mp hw
  have hmod : c.len % u16Mod = c.len := Nat.mod_eq_of_lt (by unfold u16Mod at hl ⊢; omega)
  constructor
  · simp only [CommandInput.lines_count, if_neg hne, hmod]
    congr 1
    refine Nat.mod_eq_of_lt ?_
    have := Nat.div_le_self c.len area.width
    unfold u16Mod at hl ⊢
    omega
  · simp only [CommandInput.cursor_position, if_neg hne, hmod]

/-- Witness for the amended claim C3, at the spec's own example: prompt
"> " (2 chars), buffer "gcode test" (10 chars), width 10: two rows, cursor
column 2. -/
theorem c3_wrap_geometry_witness :
    (CommandInput.mk "> " "gcode test".data).lines_count ⟨0, 0, 10, 24⟩ = some 2 ∧
    (CommandInput.mk "> " "gcode test".data).cursor_position ⟨0, 0, 10, 24⟩ =
      some ⟨2, 24⟩ := by
  have h := c3_wrap_geometry (CommandInput.mk "> " "gcode test".data) ⟨0, 0, 10, 24⟩
    (by decide) (by decide) (by decide)
  refine ⟨?_, ?_⟩
  · rw [h.1]; decide
  · rw [h.2]; decide

/-- Claim C10 (counterexample): the claim quantifies over every render
area, but at width 0 the remainder `input_len % area.width` panics in Rust
(modelled `none`), so no cursor position with row = area height is
computed there. -/
theorem c10_zero_width_counterexample :
    CommandInput.cursor_position CommandInput.new ⟨0, 0, 0, 5⟩ = none := by
  decide

/-- Claim C10 (amended): for every widget state and every render area of
positive width, the cursor position computed by the widget has row
coordinate equal to the full area height, independent of the prompt
length, buffer length, and width — it never tracks the last occupied
input row. -/
theorem c10_cursor_row_is_area_height (c : CommandInput) (area : Rect)
    (hw : 0 < area.width) :
    ∃ p : Position, c.cursor_position area = some p ∧ p.y = area.height := by
  refine ⟨⟨(c.len % u16Mod) % area.width, area.height⟩, ?_, rfl⟩
  simp [CommandInput.cursor_position, Nat.pos_iff_ne_zero.mp hw]

/-- Witness for the amended claim C10: a widget with a 4-character buffer
on a 7-row area of width 10 puts the cursor on row 7 (= the area height,
one past the last row index). -/
theorem c10_cursor_row_witness :
    ∃ p : Position,
      (CommandInput.mk "> " "home".data).cursor_position ⟨0, 0, 10, 7⟩ = some p ∧
      p.y = 7 :=
  c10_cursor_row_is_area_height (CommandInput.mk "> " "home".data) ⟨0, 0, 10, 7⟩
    (by decide)

/-- Arithmetic step for the chunk count: removing one `width`-sized slice
from a non-empty buffer decreases the slice count
`ceil(len/width) = (len + width - 1) / width` by exactly one. -/
theorem chunk_count_step (len width : Nat) (hl : 1 ≤ len) (hw : 1 ≤ width) :
    (len + width - 1) / width = ((len - width) + width - 1) / width + 1 := by
  rcases le_or_lt len width with h | h
  · have h0 : len - width = 0 := Nat.sub_eq_zero_of_le h
    rw [h0]
    have h1 : len + width - 1 = (len - 1) + width := by omega
    rw [h1, Nat.add_div_right _ hw]
    have h2 : (len - 1) / width = 0 := Nat.div_eq_of_lt (by omega)
    have h3 : (0 + width - 1) / width = 0 := Nat.div_eq_of_lt (by omega)
    omega
  · have h1 : len + width - 1 = ((len - width) + width - 1) + width := by omega
    rw [h1, Nat.add_div_right _ hw]

/-- The render loop produces exactly the successive `width`-sized slices of
the buffer: slice `i` is `(l.drop (width * i)).take width`, and there are
`ceil(l.length / width)` of them. -/
theorem sliceLoop_eq_chunks (width : Nat) (hw : 0 < width) :
    ∀ (n : Nat) (l : List Char), l.length ≤ n →
      sliceLoop width l =
        (List.range ((l.length + width - 1) / width)).map
          (fun i => (l.drop (width * i)).take width) := by
  intro n
  induction n with
  | zero =>
    intro l hl
    have h0 : l = [] := List.eq_nil_of_length_eq_zero (Nat.le_zero.mp hl)
    subst h0
    rw [sliceLoop]
    have hc : (([] : List Char).length + width - 1) / width = 0 :=
      Nat.div_eq_of_lt (by simp only [List.length_nil]; omega)
    rw [hc]
    simp
  | succ n ih =>
    intro l hl
    match l with
    | [] =>
      rw [sliceLoop]
      have hc : (([] : List Char).length + width - 1) / width = 0 :=
        Nat.div_eq_of_lt (by simp only [List.length_nil]; omega)
      rw [hc]
      simp
    | ch :: rest =>
      rw [sliceLoop, if_neg (Nat.pos_iff_ne_zero.mp hw)]
      have hq : ((ch :: rest).length + width - 1) / width
          = (((ch :: rest).drop width).length + width - 1) / width + 1 := by
        rw [List.length_drop]
        exact chunk_count_step (ch :: rest).length width (by simp) hw
      rw [hq, List.range_succ_eq_map, List.map_cons, List.map_map]
      refine List.cons_eq_cons.mpr ⟨by simp, ?_⟩
      rw [ih ((ch :: rest).drop width)
        (by rw [List.length_drop]; simp only [List.length_cons] at hl ⊢; omega)]
      refine List.map_congr_left ?_
      intro i _
      simp only [Function.comp_apply]
      rw [List.drop_drop]
      congr 2
      rw [Nat.succ_eq_add_one]
      ring

/-- Claim C6 (counterexample): the claim quantifies over every positive
width, but at width 1 the first slice length `width - self.prompt.len()`
underflows `usize` (wrapping in release, panicking in debug), so the code
puts the whole buffer on the first line instead of the claimed
prompt-then-one-character-per-line layout. -/
theorem c6_width_one_counterexample :
    (CommandInput.mk "> " ['a', 'b']).renderLines 1 ≠
      specRenderLines "> " ['a', 'b'] 1 := by
  decide

/-- Claim C6 (amended): for every buffer content and every render width
W with 2 ≤ W < 65536 (at least the prompt width, within the u16 domain of
`area.width`), the render produces the claimed lines: prompt plus the
buffer characters that fit in the remaining width on the first line, then
successive W-sized slices of the rest, stopping once exhausted. -/
theorem c6_render_first_fit (input : List Char) (width : Nat)
    (hw2 : 2 ≤ width) (hwu : width < u16Mod) :
    (CommandInput.mk "> " input).renderLines width = specRenderLines "> " input width := by
  have hb : ("> " : String).utf8ByteSize = 2 := rfl
  have hc : ("> " : String).length = 2 := rfl
  have hsub : usizeSub width 2 = width - 2 := by
    unfold usizeSub
    have h1 : width + (usizeMod - 2) = (width - 2) + usizeMod := by
      unfold usizeMod
      omega
    rw [h1, Nat.add_mod_right]
    refine Nat.mod_eq_of_lt ?_
    unfold usizeMod
    unfold u16Mod at hwu
    omega
  simp only [CommandInput.renderLines, specRenderLines, hb, hc, hsub]
  refine List.cons_eq_cons.mpr ⟨rfl, ?_⟩
  rw [sliceLoop_eq_chunks width (by omega) (input.drop (width - 2)).length
    (input.drop (width - 2)) le_rfl, List.map_map]
  rfl

/-- Witness for the amended claim C6: buffer "gcode test" at width 5
renders as the claimed slices `["> gco", "de te", "st"]`. -/
theorem c6_render_first_fit_witness :
    (CommandInput.mk "> " "gcode test".data).renderLines 5 =
      specRenderLines "> " "gcode test".data 5 ∧
    specRenderLines "> " "gcode test".data 5 = ["> gco", "de te", "st"] :=
  ⟨c6_render_first_fit "gcode test".data 5 (by decide) (by decide), by decide⟩

/-- Claim C7: on Enter the UI loop takes the buffer, resets it (prompt
unchanged), and submits the taken text on the command queue; a closed
queue makes the send fail and the loop exit with a fatal error.  A queue
that is merely full makes `blocking_send` wait, which the oracle model
folds into a completed send. -/
theorem c7_enter_submits (c : CommandInput) (m : KeyModifiers) (k : KeyEventKind) :
    dispatchEvent c (.Key ⟨.Enter, m, k⟩) =
      (⟨c.prompt, []⟩, .Send (String.mk c.input)) ∧
    (∀ (s : UIState) (tr : TryRecv), s.cmd = c →
      ioIter s ⟨.ok (), .ok true, .ok (.Key ⟨.Enter, m, k⟩), false, tr⟩ =
        .earlyReturn .SendError) ∧
    (∀ s : UIState, s.cmd = c →
      ioIter s ⟨.ok (), .ok true, .ok (.Key ⟨.Enter, m, k⟩), true, .empty⟩ =
        .continue ⟨⟨c.prompt, []⟩, s.responses⟩) := by
  have hd : dispatchEvent c (.Key ⟨.Enter, m, k⟩) =
      (⟨c.prompt, []⟩, .Send (String.mk c.input)) := by
    simp [dispatchEvent]
  refine ⟨hd, ?_, ?_⟩
  · intro s tr hs
    subst hs
    simp [ioIter, hd]
  · intro s hs
    subst hs
    simp [ioIter, hd, drainStep]

/-- Witness for claim C7: Enter on buffer "g" submits "g", resets the
buffer, keeps the prompt, and a closed command queue is a fatal exit. -/
theorem c7_enter_submits_witness :
    dispatchEvent ⟨"> ", ['g']⟩ (.Key ⟨.Enter, ⟨false, false, false⟩, .Press⟩) =
      (⟨"> ", []⟩, .Send "g") ∧
    ioIter ⟨⟨"> ", ['g']⟩, ["r"]⟩
      ⟨.ok (), .ok true, .ok (.Key ⟨.Enter, ⟨false, false, false⟩, .Press⟩),
       false, .empty⟩ = .earlyReturn .SendError :=
  ⟨(c7_enter_submits ⟨"> ", ['g']⟩ ⟨false, false, false⟩ .Press).1,
   (c7_enter_submits ⟨"> ", ['g']⟩ ⟨false, false, false⟩ .Press).2.1
     ⟨⟨"> ", ['g']⟩, ["r"]⟩ .empty rfl⟩

/-- Claim C9: the scrollback is append-only — every UI-loop iteration that
continues or breaks either leaves the response list unchanged or appends
exactly one response at its end (never removes, reorders, modifies or
truncates) — and the render shows entries most-recent-first: appending an
entry puts it at the head of the rendered list. -/
theorem c9_scrollback_append_only (s : UIState) (env : IOIterEnv) (s2 : UIState)
    (h : ioIter s env = .continue s2 ∨ ioIter s env = .breakLoop s2) :
    (s2.responses = s.responses ∨ ∃ r, s2.responses = s.responses ++ [r]) ∧
    (∀ (rs : List String) (r : String),
      scrollbackRender (rs ++ [r]) = r :: scrollbackRender rs) := by
  have hdrain : ∀ t : UIState, t.responses = s.responses →
      (drainStep t env = .continue s2 ∨ drainStep t env = .breakLoop s2) →
      s2.responses = s.responses ∨ ∃ r, s2.responses = s.responses ++ [r] := by
    intro t ht hd
    unfold drainStep at hd
    rcases htr : env.tryRecv with r | _ | _ <;> rw [htr] at hd
    · rcases hd with hd | hd
      · injection hd with h2
        right
        refine ⟨r, ?_⟩
        rw [← h2]
        show t.responses ++ [r] = s.responses ++ [r]
        rw [ht]
      · simp at hd
    · rcases hd with hd | hd
      · injection hd with h2
        left
        rw [← h2]
        exact ht
      · simp at hd
    · rcases hd with hd | hd <;> simp at hd
  refine ⟨?_, by intro rs r; simp [scrollbackRender]⟩
  rcases hdr : env.draw with e | u
  · simp only [ioIter, hdr] at h
    rcases h with h | h <;> simp at h
  rcases hp : env.poll with e | b
  · simp only [ioIter, hdr, hp] at h
    rcases h with h | h <;> simp at h
  cases b
  · simp only [ioIter, hdr, hp] at h
    exact hdrain s rfl h
  rcases hr : env.read with e | ev
  · simp only [ioIter, hdr, hp, hr] at h
    rcases h with h | h <;> simp at h
  rcases hde : dispatchEvent s.cmd ev with ⟨cmd2, act⟩
  cases act with
  | Continue =>
    simp only [ioIter, hdr, hp, hr, hde] at h
    exact hdrain { s with cmd := cmd2 } rfl h
  | Break =>
    simp only [ioIter, hdr, hp, hr, hde] at h
    rcases h with h | h
    · simp at h
    · injection h with h2
      left
      rw [← h2]
  | Send msg =>
    simp only [ioIter, hdr, hp, hr, hde] at h
    rcases hso : env.sendOk with _ | _ <;> rw [hso] at h
    · simp only [Bool.false_eq_true, if_false] at h
      rcases h with h | h <;> simp at h
    · simp only [if_true] at h
      exact hdrain { s with cmd := cmd2 } rfl h
  | Panic msg =>
    simp only [ioIter, hdr, hp, hr, hde] at h
    rcases h with h | h <;> simp at h

/-- Witness for claim C9: draining response "resp" into an empty
scrollback appends exactly that one entry at the end. -/
theorem c9_scrollback_append_only_witness :
    ((⟨CommandInput.new, ["resp"]⟩ : UIState).responses =
        (⟨CommandInput.new, []⟩ : UIState).responses ∨
      ∃ r, (⟨CommandInput.new, ["resp"]⟩ : UIState).responses =
        (⟨CommandInput.new, []⟩ : UIState).responses ++ [r]) :=
  (c9_scrollback_append_only ⟨CommandInput.new, []⟩
    ⟨.ok (), .ok false, .ok .Mouse, true, .ok "resp"⟩
    ⟨CommandInput.new, ["resp"]⟩ (Or.inl rfl)).1

/-- Draining a queue of responses one per iteration appends them in
arrival order. -/
theorem drainAll_eq_append (responses incoming : List String) :
    drainAll responses incoming = responses ++ incoming := by
  induction incoming generalizing responses with
  | nil => simp [drainAll]
  | cons r rest ih =>
    show drainAll (responses ++ [r]) rest = responses ++ r :: rest
    rw [ih]
    simp

/-- When every request succeeds, the network loop forwards one
pretty-printed response per command, in submission order. -/
theorem network_loop_success (ids : Nat → Uuid) (http : String → Except Error JSON)
    (cmdClosed : Bool) (f : String → JSON) :
    ∀ (k : Nat) (cmds : List String), (∀ c ∈ cmds, http c = .ok (f c)) →
      (network_loop ids http false cmdClosed k cmds).2.1 =
        cmds.map (fun c => JSON.pretty (f c)) := by
  intro k cmds
  induction cmds generalizing k with
  | nil => intro _; rfl
  | cons c rest ih =>
    intro hall
    have hc : http c = .ok (f c) := hall c (List.mem_cons_self c rest)
    simp only [network_loop, hc, Except.bind, format_json, List.map_cons]
    exact congrArg (JSON.pretty (f c) :: ·)
      (ih (k + 1) (fun x hx => hall x (List.mem_cons_of_mem c hx)))

/-- Claim C4: for any sequence of N submitted commands, assuming every
request succeeds, exactly N responses are produced, in submission order,
one per command, and draining them appends them to the scrollback in that
same order. -/
theorem c4_responses_in_order (ids : Nat → Uuid) (http : String → Except Error JSON)
    (f : String → JSON) (cmds : List String) (scrollback : List String)
    (hsucc : ∀ c ∈ cmds, http c = .ok (f c)) :
    (network_loop ids http false false 0 cmds).2.1 =
      cmds.map (fun c => JSON.pretty (f c)) ∧
    (network_loop ids http false false 0 cmds).2.1.length = cmds.length ∧
    drainAll scrollback (network_loop ids http false false 0 cmds).2.1 =
      scrollback ++ cmds.map (fun c => JSON.pretty (f c)) := by
  have h1 := network_loop_success ids http false f 0 cmds hsucc
  refine ⟨h1, ?_, ?_⟩
  · rw [h1, List.length_map]
  · rw [h1, drainAll_eq_append]

/-- Witness for claim C4: two successful commands produce exactly their
two responses, in order, appended after the existing scrollback. -/
theorem c4_responses_in_order_witness :
    (network_loop (fun n => n) (fun c => .ok (.str c)) false false 0
      ["G28", "M105"]).2.1 = ["\"G28\"", "\"M105\""] ∧
    drainAll ["old"] (network_loop (fun n => n) (fun c => .ok (.str c)) false false 0
      ["G28", "M105"]).2.1 = ["old", "\"G28\"", "\"M105\""] := by
  have h := c4_responses_in_order (fun n => n) (fun c => .ok (.str c))
    (fun c => .str c) ["G28", "M105"] ["old"] (by intro c hc; rfl)
  constructor
  · rw [h.1]
    simp [JSON.pretty]
  · rw [h.2.2]
    simp [JSON.pretty]

/-- One loop step on a command whose round trip succeeds: the envelope is
built, the response forwarded, and the loop proceeds to the next command
with the next fresh identifier. -/
theorem network_loop_cons_ok (ids : Nat → Uuid) (http : String → Except Error JSON)
    (cmdClosed : Bool) (k : Nat) (c : String) (rest : List String) (s : String)
    (hb : (http c).bind format_json = .ok s) :
    network_loop ids http false cmdClosed k (c :: rest) =
      (MoonrakerRPC.build (ids k) c ::
        (network_loop ids http false cmdClosed (k + 1) rest).1,
       s :: (network_loop ids http false cmdClosed (k + 1) rest).2.1,
       (network_loop ids http false cmdClosed (k + 1) rest).2.2) := by
  simp only [network_loop, hb, Bool.false_eq_true, if_false]

/-- The loop always builds the envelope for the head command with the
current fresh identifier, whatever happens afterwards. -/
theorem network_loop_head_req (ids : Nat → Uuid) (http : String → Except Error JSON)
    (respClosed cmdClosed : Bool) (k : Nat) (c : String) (rest : List String) :
    ∃ t, (network_loop ids http respClosed cmdClosed k (c :: rest)).1 =
      MoonrakerRPC.build (ids k) c :: t := by
  rcases hc : (http c).bind format_json with e | s2
  · refine ⟨[], ?_⟩
    simp only [network_loop, hc]
  · cases respClosed
    · refine ⟨(network_loop ids http false cmdClosed (k + 1) rest).1, ?_⟩
      simp only [network_loop, hc, Bool.false_eq_true, if_false]
    · refine ⟨[], ?_⟩
      simp only [network_loop, hc, if_true]

/-- Claim C5: the network loop returns an error exactly when a failure
occurs — it is still running (result `none`) iff the command queue is open,
every round trip succeeded, and the response queue was never closed while
a response had to be sent; a closed command queue while awaiting input
yields the disconnect error; an HTTP/parse failure aborts immediately with
that error, forwarding nothing further. -/
theorem c5_abort_on_failure (ids : Nat → Uuid) (http : String → Except Error JSON)
    (respClosed cmdClosed : Bool) :
    (∀ (k : Nat) (cmds : List String),
      ((network_loop ids http respClosed cmdClosed k cmds).2.2 = none ↔
        (cmdClosed = false ∧ (∀ c ∈ cmds, ∃ v, http c = .ok v) ∧
          (respClosed = true → cmds = [])))) ∧
    (∀ k : Nat, network_loop ids http respClosed true k [] =
      ([], [], some .DisconnectedIOChannel)) ∧
    (∀ (k : Nat) (c : String) (rest : List String) (e : Error), http c = .error e →
      network_loop ids http respClosed cmdClosed k (c :: rest) =
        ([MoonrakerRPC.build (ids k) c], [], some e)) := by
  refine ⟨?_, ?_, ?_⟩
  · intro k cmds
    induction cmds generalizing k with
    | nil =>
      simp only [network_loop]
      cases cmdClosed <;> simp
    | cons c rest ih =>
      rcases hc : http c with e | v
      · have hb : (http c).bind format_json = .error e := by rw [hc]; rfl
        simp only [network_loop, hb]
        constructor
        · intro hn
          simp at hn
        · rintro ⟨-, hall, -⟩
          rcases hall c (List.mem_cons_self c rest) with ⟨v, hv⟩
          rw [hc] at hv
          cases hv
      · have hb : (http c).bind format_json = .ok (JSON.pretty v) := by rw [hc]; rfl
        cases respClosed
        · simp only [network_loop, hb, Bool.false_eq_true, if_false]
          rw [ih (k + 1)]
          constructor
          · rintro ⟨h1, h2, -⟩
            refine ⟨h1, ?_, ?_⟩
            · intro x hx
              rcases List.mem_cons.mp hx with rfl | hx
              · exact ⟨v, hc⟩
              · exact h2 x hx
            · simp
          · rintro ⟨h1, h2, -⟩
            refine ⟨h1, ?_, ?_⟩
            · intro x hx
              exact h2 x (List.mem_cons_of_mem c hx)
            · simp
        · simp only [network_loop, hb, if_true]
          constructor
          · intro hn
            simp at hn
          · rintro ⟨-, -, h3⟩
            exact (List.cons_ne_nil c rest (h3 (by trivial))).elim
  · intro k
    rfl
  · intro k c rest e he
    have hb : (http c).bind format_json = .error e := by rw [he]; rfl
    simp only [network_loop, hb]

/-- Witness for claim C5: a transport failure on the first command aborts
the loop immediately, surfacing that error, with no response forwarded. -/
theorem c5_abort_on_failure_witness :
    network_loop (fun n => n) (fun _ => .error .Request) false false 0 ["G28"] =
      ([MoonrakerRPC.build 0 "G28"], [], some .Request) :=
  (c5_abort_on_failure (fun n => n) (fun _ => .error .Request) false false).2.2
    0 "G28" [] .Request rfl

/-- Claim C8: every request serializes as a JSON object with jsonrpc
"2.0", method "printer.gcode.script", params `{"script": <raw text>}`
(braces elided: the script field holds the raw command text), and the
freshly drawn identifier; two consecutive submissions draw consecutive
identifiers from the stream, hence distinct ones. -/
theorem c8_request_envelope (ids : Nat → Uuid) (hinj : Function.Injective ids) :
    (∀ (k : Nat) (input : String),
      (MoonrakerRPC.build (ids k) input).serialize.lookup "jsonrpc" =
        some (.str "2.0") ∧
      (MoonrakerRPC.build (ids k) input).serialize.lookup "method" =
        some (.str "printer.gcode.script") ∧
      (MoonrakerRPC.build (ids k) input).serialize.lookup "params" =
        some (.obj [("script", .str input)]) ∧
      (MoonrakerRPC.build (ids k) input).serialize.lookup "id" =
        some (.str (toString (ids k)))) ∧
    (∀ (http : String → Except Error JSON) (cmdClosed : Bool) (k : Nat)
      (c1 c2 : String) (rest : List String) (v1 : JSON), http c1 = .ok v1 →
      (∃ reqs, (network_loop ids http false cmdClosed k (c1 :: c2 :: rest)).1 =
        MoonrakerRPC.build (ids k) c1 :: MoonrakerRPC.build (ids (k + 1)) c2 :: reqs) ∧
      (MoonrakerRPC.build (ids k) c1).id ≠ (MoonrakerRPC.build (ids (k + 1)) c2).id) := by
  constructor
  · intro k input
    exact ⟨rfl, rfl, rfl, rfl⟩
  · intro http cmdClosed k c1 c2 rest v1 h1
    constructor
    · obtain ⟨t, ht⟩ := network_loop_head_req ids http false cmdClosed (k + 1) c2 rest
      refine ⟨t, ?_⟩
      have hb : (http c1).bind format_json = .ok (JSON.pretty v1) := by rw [h1]; rfl
      rw [network_loop_cons_ok ids http cmdClosed k c1 (c2 :: rest) (JSON.pretty v1) hb]
      show MoonrakerRPC.build (ids k) c1 ::
        (network_loop ids http false cmdClosed (k + 1) (c2 :: rest)).1 =
        MoonrakerRPC.build (ids k) c1 :: MoonrakerRPC.build (ids (k + 1)) c2 :: t
      rw [ht]
    · intro heq
      have hk : k = k + 1 := hinj heq
      omega

/-- Witness for claim C8: with the identity identifier stream, the request
for "G28" carries params `{"script": "G28"}` (braces elided) and the first
two identifiers drawn differ. -/
theorem c8_request_envelope_witness :
    (MoonrakerRPC.build 0 "G28").serialize.lookup "params" =
      some (.obj [("script", .str "G28")]) ∧
    (MoonrakerRPC.build 0 "G28").id ≠ (MoonrakerRPC.build 1 "G29").id :=
  ⟨((c8_request_envelope (fun n => n) (fun _ _ hab => hab)).1 0 "G28").2.2.1,
   ((c8_request_envelope (fun n => n) (fun _ _ hab => hab)).2 (fun _ => .ok .null)
     false 0 "G28" "G29" [] .null rfl).2⟩
